import Mathlib

/-!
# Colour organ LED server: shallow embedding of `main/hello_world_main.c`

The embedding keeps the C names.  The globals of the translation unit
(`gamma_table`, `ws_connected`, `current_rgb`) form the record `Globals`.
Every function returns the globals it leaves behind, its return value and the
ordered list of calls it made to code outside the translation unit (LEDC
driver, FreeRTOS, HTTP server).  What those outside calls answer
(`xSemaphoreTake`, `httpd_ws_recv_frame`, `esp_timer_get_time`) is an explicit
argument of the embedded function, so every theorem quantifies over all
possible answers.
-/

namespace ColorOrgan

/-! ## Constants and types of the headers -/

/-- C type `uint8_t`. -/
abbrev uint8_t := Fin 256

/-- Three bytes `rgb[0], rgb[1], rgb[2]` of a `uint8_t[3]` array. -/
abbrev Rgb := uint8_t × uint8_t × uint8_t

/-- Return code `ESP_OK` of `esp_err.h`. -/
def ESP_OK : Int := 0

/-- Method number `HTTP_GET` of `http_parser.h`. -/
def HTTP_GET : Nat := 1

/-- Enumerator `LEDC_TIMER_13_BIT` of `ledc_timer_bit_t`. -/
def LEDC_TIMER_13_BIT : Nat := 13

/-- Source line 32: `#define LEDC_DUTY_RES LEDC_TIMER_13_BIT`. -/
def LEDC_DUTY_RES : Nat := LEDC_TIMER_13_BIT

/-- Channel ids of `ledc_channel_t` used by the program. -/
def LEDC_CHANNEL_0 : Nat := 0

/-- Channel id of the green LED. -/
def LEDC_CHANNEL_1 : Nat := 1

/-- Channel id of the blue LED. -/
def LEDC_CHANNEL_2 : Nat := 2

/-- Frame types of `httpd_ws_type_t`. -/
inductive httpd_ws_type_t
  | HTTPD_WS_TYPE_CONTINUE
  | HTTPD_WS_TYPE_TEXT
  | HTTPD_WS_TYPE_BINARY
  | HTTPD_WS_TYPE_CLOSE
  | HTTPD_WS_TYPE_PING
  | HTTPD_WS_TYPE_PONG
  deriving DecidableEq, Repr

open httpd_ws_type_t

/-- Frame record `httpd_ws_frame_t`; `payload` holds the bytes of the buffer
the pointer refers to and is empty for a NULL pointer. -/
structure httpd_ws_frame_t where
  final : Bool
  fragmented : Bool
  type : httpd_ws_type_t
  payload : List uint8_t
  len : Nat
  deriving DecidableEq, Repr

/-- Calls that leave the translation unit, in the order they are made.  The
constant first argument `LEDC_MODE` of the LEDC calls is left out. -/
inductive Call
  | xSemaphoreTake (timeout_ms : Nat)
  | xSemaphoreGive
  | ledc_set_duty (channel : Nat) (duty : Nat)
  | ledc_update_duty (channel : Nat)
  | esp_timer_get_time
  | vTaskDelay (ms : Nat)
  | httpd_ws_recv_frame (max_len : Nat)
  | httpd_ws_send_frame (pkt : httpd_ws_frame_t)
  deriving DecidableEq, Repr

/-- Output Sink calls are the two LEDC driver calls. -/
def Call.isLedc : Call → Bool
  | .ledc_set_duty _ _ => true
  | .ledc_update_duty _ => true
  | _ => false

/-- Frames handed to `httpd_ws_send_frame`. -/
def Call.isSend : Call → Bool
  | .httpd_ws_send_frame _ => true
  | _ => false

/-! ## Globals (source lines 36-39) -/

/-- File-scope variables of the program.  `rgb_mutex` has no field: whether a
take succeeds depends on the other task and is an argument of the caller. -/
structure Globals where
  gamma_table : uint8_t → Nat
  ws_connected : Bool
  current_rgb : Rgb

/-- Result of running a function: globals afterwards, return value, calls made. -/
structure Ret (α : Type) where
  globals : Globals
  value : α
  calls : List Call

/-! ## `set_rgb` and `update_leds_safe` (source lines 49-68) -/

/-- Source lines 49-57: six driver calls, reading `gamma_table`. -/
def set_rgb (s : Globals) (r g b : uint8_t) : List Call :=
  [ Call.ledc_set_duty LEDC_CHANNEL_0 (s.gamma_table r),
    Call.ledc_update_duty LEDC_CHANNEL_0,
    Call.ledc_set_duty LEDC_CHANNEL_1 (s.gamma_table g),
    Call.ledc_update_duty LEDC_CHANNEL_1,
    Call.ledc_set_duty LEDC_CHANNEL_2 (s.gamma_table b),
    Call.ledc_update_duty LEDC_CHANNEL_2 ]

/-- Source lines 59-68.  `take` is the truth value of
`xSemaphoreTake(rgb_mutex, pdMS_TO_TICKS(10)) == pdTRUE`. -/
def update_leds_safe (s : Globals) (take : Bool) (r g b : uint8_t) : Ret Unit :=
  if take then
    { globals := { s with current_rgb := (r, g, b) }
      value := ()
      calls := [Call.xSemaphoreTake 10] ++ set_rgb s r g b ++ [Call.xSemaphoreGive] }
  else
    { globals := s, value := (), calls := [Call.xSemaphoreTake 10] }

/-! ## `sine_animation_task` (source lines 70-90) -/

/-- Answers of the outside world during one loop iteration. -/
structure TickEnv where
  time_us : Nat
  take : Bool

/-- One iteration of the `while (1)` loop of `sine_animation_task`.  The
single-precision computation of lines 77-84 (time in microseconds to the three
bytes `rgb[0..2]`) is the parameter `sine`. -/
def sine_animation_tick (sine : Nat → Rgb) (s : Globals) (e : TickEnv) : Ret Unit :=
  if !s.ws_connected then
    let rgb := sine e.time_us
    let u := update_leds_safe s e.take rgb.1 rgb.2.1 rgb.2.2
    { globals := u.globals
      value := ()
      calls := [Call.esp_timer_get_time] ++ u.calls ++ [Call.vTaskDelay 20] }
  else
    { globals := s, value := (), calls := [Call.vTaskDelay 20] }

/-- Source lines 70-90: the `while (1)` loop, run for as many iterations as
the list holds answers of the outside world; the calls of all iterations are
concatenated.  The loop has no exit, so the list is what bounds a run. -/
def sine_animation_task (sine : Nat → Rgb) (s : Globals) : List TickEnv → Ret Unit
  | [] => { globals := s, value := (), calls := [] }
  | e :: es =>
    let r := sine_animation_tick sine s e
    let rest := sine_animation_task sine r.globals es
    { globals := rest.globals, value := (), calls := r.calls ++ rest.calls }

/-! ## `ws_handler` (source lines 171-212) -/

/-- Request record `httpd_req_t`, reduced to the field the handler reads. -/
structure httpd_req_t where
  method : Nat

/-- What one call of `httpd_ws_recv_frame(req, &ws_pkt, max_len)` leaves
behind: the return code, the fields it wrote into `ws_pkt` and the bytes found
in the attached buffer afterwards. -/
structure RecvOutcome where
  ret : Int
  final : Bool
  fragmented : Bool
  type : httpd_ws_type_t
  len : Nat
  buf : Rgb

/-- Answers of the outside world during one handler invocation: the
length-probing receive (`max_len = 0`), the payload receive (`max_len = 3`)
and the mutex take inside `update_leds_safe`. -/
structure WsEnv where
  probe : RecvOutcome
  read : RecvOutcome
  take : Bool

/-- Source lines 171-212. -/
def ws_handler (s : Globals) (req : httpd_req_t) (env : WsEnv) : Ret Int :=
  if req.method = HTTP_GET then
    { globals := { s with ws_connected := true }, value := ESP_OK, calls := [] }
  else
    -- lines 178-182: zeroed packet of type TEXT, then the probing receive
    let ret := env.probe.ret
    let ws_pkt : httpd_ws_frame_t :=
      { final := env.probe.final, fragmented := env.probe.fragmented,
        type := env.probe.type, payload := [], len := env.probe.len }
    if ret ≠ ESP_OK then
      { globals := { s with ws_connected := false }, value := ESP_OK,
        calls := [Call.httpd_ws_recv_frame 0] }
    else if ws_pkt.type = HTTPD_WS_TYPE_CLOSE then
      { globals := { s with ws_connected := false }, value := ESP_OK,
        calls := [Call.httpd_ws_recv_frame 0] }
    else if ws_pkt.len ≠ 3 then
      { globals := s, value := ESP_OK, calls := [Call.httpd_ws_recv_frame 0] }
    else
      -- lines 197-199: attach the buffer, receive the payload
      let ret := env.read.ret
      let rgb := env.read.buf
      let ws_pkt : httpd_ws_frame_t :=
        { final := env.read.final, fragmented := env.read.fragmented,
          type := env.read.type, payload := [rgb.1, rgb.2.1, rgb.2.2], len := env.read.len }
      if ret = ESP_OK ∧ ws_pkt.len = 3 then
        let s1 := { s with ws_connected := true }
        if rgb.1 = 255 ∧ rgb.2.1 = 255 ∧ rgb.2.2 = 255 then
          { globals := s1, value := ESP_OK,
            calls := [Call.httpd_ws_recv_frame 0, Call.httpd_ws_recv_frame 3,
                      Call.httpd_ws_send_frame ws_pkt] }
        else
          let u := update_leds_safe s1 env.take rgb.1 rgb.2.1 rgb.2.2
          { globals := u.globals, value := ESP_OK,
            calls := [Call.httpd_ws_recv_frame 0, Call.httpd_ws_recv_frame 3] ++ u.calls }
      else
        { globals := { s with ws_connected := false }, value := ESP_OK,
          calls := [Call.httpd_ws_recv_frame 0, Call.httpd_ws_recv_frame 3] }

/-! ## PWM output -/

/-- Modelled from the spec: the Output Sink of section 6, `setDuty(channel_id,
duty_value)` followed by `commit(channel_id)`.  The LEDC driver is outside the
repository; `duty` is the value latched per channel by `ledc_set_duty`, `out`
the value `ledc_update_duty` last committed to the channel. -/
structure Ledc where
  duty : Nat → Nat
  out : Nat → Nat

/-- Effect of one call on the PWM peripheral; calls to other collaborators
leave it alone. -/
def Ledc.call (h : Ledc) : Call → Ledc
  | .ledc_set_duty ch d => { h with duty := Function.update h.duty ch d }
  | .ledc_update_duty ch => { h with out := Function.update h.out ch (h.duty ch) }
  | _ => h

/-- Effect of a sequence of calls, first call first. -/
def Ledc.run (h : Ledc) (cs : List Call) : Ledc := cs.foldl Ledc.call h

/-- Source lines 101-124: every channel is configured with `.duty = 0`. -/
def pwm_init : Ledc := { duty := fun _ => 0, out := fun _ => 0 }

/-- Globals together with the PWM peripheral. -/
structure System where
  globals : Globals
  ledc : Ledc

/-- State when `app_main` has executed line 256, before any other task exists:
`table` is what `init_gamma_table` left in `gamma_table`, the other globals
hold their static initialisers, `pwm_init` has run and `set_rgb(128, 128, 128)`
was issued. -/
def app_main_init (table : uint8_t → Nat) : System :=
  let g : Globals := { gamma_table := table, ws_connected := false, current_rgb := (128, 128, 128) }
  { globals := g, ledc := pwm_init.run (set_rgb g 128 128 128) }

/-- Output/state consistency: the duty last committed to each channel is the
table entry of the stored colour byte of that channel. -/
def Consistent (sys : System) : Prop :=
  sys.ledc.out LEDC_CHANNEL_0 = sys.globals.gamma_table sys.globals.current_rgb.1 ∧
  sys.ledc.out LEDC_CHANNEL_1 = sys.globals.gamma_table sys.globals.current_rgb.2.1 ∧
  sys.ledc.out LEDC_CHANNEL_2 = sys.globals.gamma_table sys.globals.current_rgb.2.2

instance (sys : System) : Decidable (Consistent sys) := by
  unfold Consistent
  infer_instance

/-! ## The two tasks running concurrently

`app_main` creates the animation task (line 261) and starts the HTTP server
(line 227), whose own task runs `ws_handler`.  The two tasks interleave at the
grain of the statements of `update_leds_safe`: a task is outside the function,
blocked in `xSemaphoreTake` (line 61), or holds `rgb_mutex` and is about to
execute one of lines 62-66 (`set_rgb` is inline, so line 65 is lines 51-56).
Before it reaches line 61 an iteration only reads `ws_connected` and an
invocation only stores it, once, after its receives; that part is gathered
into the step that ends at line 61 or at the return.  The server task runs one
invocation of `ws_handler` at a time.  A task blocked at line 61 stays blocked
while the globals change under it, so a write decided on an old value of
`ws_connected` is part of the model. -/

/-- The two tasks that call `update_leds_safe`. -/
inductive TaskId
  | anim
  | httpd
  deriving DecidableEq, Repr

/-- Program points of a task holding `rgb_mutex`, named by the source line it
executes next. -/
inductive Line
  | L62 | L63 | L64 | L51 | L52 | L53 | L54 | L55 | L56 | L66
  deriving DecidableEq, Repr

/-- Where a task stands with respect to `update_leds_safe(r, g, b)`. -/
inductive Status
  | idle
  | waiting (rgb : Rgb)
  | inside (rgb : Rgb) (next : Line)
  deriving DecidableEq, Repr

/-- A task holds the mutex exactly when it is inside lines 62-66. -/
def Status.holds : Status → Bool
  | .inside _ _ => true
  | _ => false

/-- State of the running program: globals, PWM peripheral and the standing of
each task. -/
structure Conc where
  globals : Globals
  ledc : Ledc
  anim : Status
  httpd : Status

/-- Neither task is inside lines 62-66, that is, `rgb_mutex` is free. -/
def Conc.mutexFree (c : Conc) : Bool := !c.anim.holds && !c.httpd.holds

/-- Globals and peripheral of a running state. -/
def Conc.system (c : Conc) : System := { globals := c.globals, ledc := c.ledc }

/-- Execution of the statement at program point `next` by a task inside
`update_leds_safe(rgb)`: lines 62-64 store one byte each, lines 51-56 are the
six driver calls of `set_rgb`, line 66 gives the mutex back and leaves. -/
def crit_step (rgb : Rgb) (next : Line) (s : Globals) (h : Ledc) : Globals × Ledc × Status :=
  match next with
  | .L62 => ({ s with current_rgb := (rgb.1, s.current_rgb.2.1, s.current_rgb.2.2) }, h,
             .inside rgb .L63)
  | .L63 => ({ s with current_rgb := (s.current_rgb.1, rgb.2.1, s.current_rgb.2.2) }, h,
             .inside rgb .L64)
  | .L64 => ({ s with current_rgb := (s.current_rgb.1, s.current_rgb.2.1, rgb.2.2) }, h,
             .inside rgb .L51)
  | .L51 => (s, h.call (Call.ledc_set_duty LEDC_CHANNEL_0 (s.gamma_table rgb.1)),
             .inside rgb .L52)
  | .L52 => (s, h.call (Call.ledc_update_duty LEDC_CHANNEL_0), .inside rgb .L53)
  | .L53 => (s, h.call (Call.ledc_set_duty LEDC_CHANNEL_1 (s.gamma_table rgb.2.1)),
             .inside rgb .L54)
  | .L54 => (s, h.call (Call.ledc_update_duty LEDC_CHANNEL_1), .inside rgb .L55)
  | .L55 => (s, h.call (Call.ledc_set_duty LEDC_CHANNEL_2 (s.gamma_table rgb.2.2)),
             .inside rgb .L56)
  | .L56 => (s, h.call (Call.ledc_update_duty LEDC_CHANNEL_2), .inside rgb .L66)
  | .L66 => (s, h, .idle)

/-- Lines 75-86 of one loop iteration up to the call of `update_leds_safe`:
the colour write the iteration asks for, none when `ws_connected` is set. -/
def sine_animation_request (sine : Nat → Rgb) (s : Globals) (time_us : Nat) : Option Rgb :=
  if !s.ws_connected then some (sine time_us) else none

/-- Source lines 171-212 up to the call of `update_leds_safe` at line 205:
the globals after the handler's own stores, and the colour write it asks for,
none on the paths that return without reaching line 205. -/
def ws_handler_request (s : Globals) (req : httpd_req_t) (probe read : RecvOutcome) :
    Globals × Option Rgb :=
  if req.method = HTTP_GET then
    ({ s with ws_connected := true }, none)
  else if probe.ret ≠ ESP_OK then
    ({ s with ws_connected := false }, none)
  else if probe.type = HTTPD_WS_TYPE_CLOSE then
    ({ s with ws_connected := false }, none)
  else if probe.len ≠ 3 then
    (s, none)
  else if read.ret = ESP_OK ∧ read.len = 3 then
    if read.buf.1 = 255 ∧ read.buf.2.1 = 255 ∧ read.buf.2.2 = 255 then
      ({ s with ws_connected := true }, none)
    else
      ({ s with ws_connected := true }, some read.buf)
  else
    ({ s with ws_connected := false }, none)

/-- Moves of the running program.  `tick` and `request` start a loop iteration
or a handler invocation and run it to line 61 or to its return; `take` and
`timeout` are the two ways `xSemaphoreTake` comes back; `advance` executes the
next statement of the task holding the mutex. -/
inductive Event
  | tick (time_us : Nat)
  | request (req : httpd_req_t) (probe read : RecvOutcome)
  | take (t : TaskId)
  | timeout (t : TaskId)
  | advance (t : TaskId)

/-- One move.  A move the program cannot make in the state at hand leaves the
state as it is: a task starts an iteration or invocation only when idle,
`take` succeeds only for a blocked task while the other task does not hold the
mutex, `timeout` strikes only a blocked task while the other task holds it,
and only the holder advances. -/
def Conc.step (sine : Nat → Rgb) (c : Conc) : Event → Conc
  | .tick time_us =>
    match c.anim with
    | .idle =>
      match sine_animation_request sine c.globals time_us with
      | some rgb => { c with anim := .waiting rgb }
      | none => c
    | _ => c
  | .request req probe read =>
    match c.httpd with
    | .idle =>
      match ws_handler_request c.globals req probe read with
      | (s, some rgb) => { c with globals := s, httpd := .waiting rgb }
      | (s, none) => { c with globals := s }
    | _ => c
  | .take .anim =>
    match c.anim with
    | .waiting rgb => if c.httpd.holds then c else { c with anim := .inside rgb .L62 }
    | _ => c
  | .take .httpd =>
    match c.httpd with
    | .waiting rgb => if c.anim.holds then c else { c with httpd := .inside rgb .L62 }
    | _ => c
  | .timeout .anim =>
    match c.anim with
    | .waiting _ => if c.httpd.holds then { c with anim := .idle } else c
    | _ => c
  | .timeout .httpd =>
    match c.httpd with
    | .waiting _ => if c.anim.holds then { c with httpd := .idle } else c
    | _ => c
  | .advance .anim =>
    match c.anim with
    | .inside rgb next =>
      { c with globals := (crit_step rgb next c.globals c.ledc).1,
               ledc := (crit_step rgb next c.globals c.ledc).2.1,
               anim := (crit_step rgb next c.globals c.ledc).2.2 }
    | _ => c
  | .advance .httpd =>
    match c.httpd with
    | .inside rgb next =>
      { c with globals := (crit_step rgb next c.globals c.ledc).1,
               ledc := (crit_step rgb next c.globals c.ledc).2.1,
               httpd := (crit_step rgb next c.globals c.ledc).2.2 }
    | _ => c

/-- A sequence of moves, first move first. -/
def Conc.run (sine : Nat → Rgb) (c : Conc) (l : List Event) : Conc :=
  l.foldl (Conc.step sine) c

/-- Running state when `app_main` has created the animation task and started
the server: the state of `app_main_init` with both tasks idle. -/
def conc_init (table : uint8_t → Nat) : Conc :=
  { globals := (app_main_init table).globals, ledc := (app_main_init table).ledc,
    anim := .idle, httpd := .idle }

/-- The ten moves by which task `t` executes lines 62-66 once it holds the
mutex. -/
def critical_section (t : TaskId) : List Event := List.replicate 10 (Event.advance t)

/-- What the holder of the mutex has established when it is about to execute
`next` inside `update_leds_safe(rgb)`. -/
def CritInv (rgb : Rgb) (next : Line) (s : Globals) (h : Ledc) : Prop :=
  match next with
  | .L62 => True
  | .L63 => s.current_rgb.1 = rgb.1
  | .L64 => s.current_rgb.1 = rgb.1 ∧ s.current_rgb.2.1 = rgb.2.1
  | .L51 => s.current_rgb = rgb
  | .L52 => s.current_rgb = rgb ∧ h.duty LEDC_CHANNEL_0 = s.gamma_table rgb.1
  | .L53 => s.current_rgb = rgb ∧ h.out LEDC_CHANNEL_0 = s.gamma_table rgb.1
  | .L54 => s.current_rgb = rgb ∧ h.out LEDC_CHANNEL_0 = s.gamma_table rgb.1 ∧
            h.duty LEDC_CHANNEL_1 = s.gamma_table rgb.2.1
  | .L55 => s.current_rgb = rgb ∧ h.out LEDC_CHANNEL_0 = s.gamma_table rgb.1 ∧
            h.out LEDC_CHANNEL_1 = s.gamma_table rgb.2.1
  | .L56 => s.current_rgb = rgb ∧ h.out LEDC_CHANNEL_0 = s.gamma_table rgb.1 ∧
            h.out LEDC_CHANNEL_1 = s.gamma_table rgb.2.1 ∧
            h.duty LEDC_CHANNEL_2 = s.gamma_table rgb.2.2
  | .L66 => s.current_rgb = rgb ∧ h.out LEDC_CHANNEL_0 = s.gamma_table rgb.1 ∧
            h.out LEDC_CHANNEL_1 = s.gamma_table rgb.2.1 ∧
            h.out LEDC_CHANNEL_2 = s.gamma_table rgb.2.2

/-- Inductive invariant of the running program: at most one task holds the
mutex; while one does, it has established `CritInv`; while none does, output
and state are consistent. -/
def Conc.Inv (c : Conc) : Prop :=
  match c.anim, c.httpd with
  | .inside _ _, .inside _ _ => False
  | .inside rgb next, _ => CritInv rgb next c.globals c.ledc
  | _, .inside rgb next => CritInv rgb next c.globals c.ledc
  | _, _ => Consistent c.system

/-! ## `init_gamma_table` (source lines 34 and 41-47) -/

/-- Conversion of a floating value to `uint32_t` (C11 6.3.1.4): the value is
truncated toward zero; when the truncated value is not representable the
behaviour is undefined, which is `none` here. -/
def f2u32 (x : ℚ) : Option Nat :=
  let t : Int := Int.tdiv x.num x.den
  if 0 ≤ t ∧ t < 2 ^ 32 then some t.toNat else none

/-- Loop body of `init_gamma_table` for index `i` (lines 44-45).  `MAX_DUTY`
is the token sequence `(1 << LEDC_DUTY_RES) - 1` (line 34), so line 45 reads
`(uint32_t)(powf(normalized, 2.2f) * (1 << LEDC_DUTY_RES) - 1)`.  Values of
type `float` are the rationals they denote; `fl` is the rounding of an exact
result to single precision, applied after the division, the product and the
subtraction, and `pow22` is the library function `x ↦ powf(x, 2.2f)`. -/
def gamma_entry (fl : ℚ → ℚ) (pow22 : ℚ → ℚ) (i : Nat) : Option Nat :=
  let normalized : ℚ := fl ((i : ℚ) / 255)
  f2u32 (fl (fl (pow22 normalized * (((1 <<< LEDC_DUTY_RES : Nat) : ℚ))) - 1))

/-- Source lines 41-47: the table as written by the loop, entry by entry. -/
def init_gamma_table (fl : ℚ → ℚ) (pow22 : ℚ → ℚ) : uint8_t → Option Nat :=
  fun i => gamma_entry fl pow22 i.val

/-- Rounding to single precision returns every integer of magnitude up to
`2 ^ 24` unchanged, as each of them is a single-precision value. -/
def FixesSmallIntegers (fl : ℚ → ℚ) : Prop :=
  ∀ n : ℤ, |n| ≤ 2 ^ 24 → fl (n : ℚ) = (n : ℚ)

/-! ## Sample inputs -/

/-- A sample table (not the gamma curve): entry `i` is `32 * i`. -/
def sampleTable : uint8_t → Nat := fun i => 32 * i.val

/-- Sample globals: the static initialisers of lines 37 and 39. -/
def sampleGlobals : Globals :=
  { gamma_table := sampleTable, ws_connected := false, current_rgb := (128, 128, 128) }

/-- Sample globals with a remote session marked live and colour (10,20,30). -/
def sampleLive : Globals :=
  { gamma_table := sampleTable, ws_connected := true, current_rgb := (10, 20, 30) }

/-- A request that is not the GET handshake, as for a data frame. -/
def frameReq : httpd_req_t := { method := 0 }

/-- A receive that returns `ESP_OK` with the given type, length and bytes. -/
def recvOk (t : httpd_ws_type_t) (len : Nat) (buf : Rgb) : RecvOutcome :=
  { ret := ESP_OK, final := true, fragmented := false, type := t, len := len, buf := buf }

/-- A receive that returns the error code `-1` (`ESP_FAIL`). -/
def recvFail : RecvOutcome :=
  { ret := -1, final := false, fragmented := false, type := HTTPD_WS_TYPE_TEXT, len := 0,
    buf := (0, 0, 0) }

/-- A sample stand-in for the sine computation: the low byte of the time in
each channel, shifted by the channel index. -/
def sampleSine : Nat → Rgb := fun t =>
  (Fin.ofNat t, Fin.ofNat (t + 1), Fin.ofNat (t + 2))

/-- A sample stand-in for `x ↦ powf(x, 2.2f)` with the two values every libm
fixes, `0 ↦ 0` and `1 ↦ 1`: the square. -/
def sampleSquare : ℚ → ℚ := fun x => x * x

/-- Sample run in which the animation task takes the mutex at 20000 us and
executes lines 62-64, storing the sine triple, but has not reached line 65. -/
def midWrite : List Event :=
  [Event.tick 20000, Event.take TaskId.anim, Event.advance TaskId.anim,
   Event.advance TaskId.anim, Event.advance TaskId.anim]

/-- Sample run of complete writes: the animation task writes the sine triple
of 20000 us, then the handler receives the colour frame (10,20,30) and writes
it, then a handshake request arrives. -/
def fullWrites : List Event :=
  [Event.tick 20000, Event.take TaskId.anim] ++ critical_section TaskId.anim ++
  [Event.request frameReq (recvOk HTTPD_WS_TYPE_BINARY 3 (0, 0, 0))
     (recvOk HTTPD_WS_TYPE_BINARY 3 (10, 20, 30)), Event.take TaskId.httpd] ++
  critical_section TaskId.httpd ++
  [Event.request ⟨HTTP_GET⟩ recvFail recvFail]

/-! ## Helper lemmas -/

/-- The six driver calls of `set_rgb` are all Output Sink calls. -/
theorem set_rgb_filter_isLedc (s : Globals) (r g b : uint8_t) :
    (set_rgb s r g b).filter Call.isLedc = set_rgb s r g b := by
  simp [set_rgb, Call.isLedc]

/-- A tick taken while `ws_connected` is set only delays. -/
theorem sine_animation_tick_connected (sine : Nat → Rgb) (s : Globals) (e : TickEnv)
    (h : s.ws_connected = true) :
    sine_animation_tick sine s e = { globals := s, value := (), calls := [Call.vTaskDelay 20] } := by
  simp [sine_animation_tick, h]

/-- A tick taken while `ws_connected` is clear is the colour-state write of
the sine triple, framed by the timer read and the delay. -/
theorem sine_animation_tick_idle (sine : Nat → Rgb) (s : Globals) (e : TickEnv)
    (h : s.ws_connected = false) :
    sine_animation_tick sine s e =
      { globals := (update_leds_safe s e.take (sine e.time_us).1 (sine e.time_us).2.1
            (sine e.time_us).2.2).globals
        value := ()
        calls := [Call.esp_timer_get_time] ++
          (update_leds_safe s e.take (sine e.time_us).1 (sine e.time_us).2.1
            (sine e.time_us).2.2).calls ++ [Call.vTaskDelay 20] } := by
  simp [sine_animation_tick, h]

/-! ## Shared colour state: `update_leds_safe` -/

/-- C8: when the mutex is taken, `update_leds_safe(r,g,b)` stores `(r,g,b)` in
`current_rgb`, leaves the table and the liveness flag alone, and makes exactly
the calls take, set/update channel 0 with `gamma_table[r]`, set/update channel 1
with `gamma_table[g]`, set/update channel 2 with `gamma_table[b]`, give, in
that order.  The call list is a function of `(r,g,b)` and the table only: any
globals with the same table yield the same calls, and so does a second
identical write issued right after the first. -/
theorem update_leds_safe_acquired (s : Globals) (r g b : uint8_t) :
    (update_leds_safe s true r g b).globals.current_rgb = (r, g, b) ∧
    (update_leds_safe s true r g b).globals.gamma_table = s.gamma_table ∧
    (update_leds_safe s true r g b).globals.ws_connected = s.ws_connected ∧
    (update_leds_safe s true r g b).calls =
      [ Call.xSemaphoreTake 10,
        Call.ledc_set_duty LEDC_CHANNEL_0 (s.gamma_table r), Call.ledc_update_duty LEDC_CHANNEL_0,
        Call.ledc_set_duty LEDC_CHANNEL_1 (s.gamma_table g), Call.ledc_update_duty LEDC_CHANNEL_1,
        Call.ledc_set_duty LEDC_CHANNEL_2 (s.gamma_table b), Call.ledc_update_duty LEDC_CHANNEL_2,
        Call.xSemaphoreGive ] ∧
    (∀ s2 : Globals, s2.gamma_table = s.gamma_table →
      (update_leds_safe s2 true r g b).calls = (update_leds_safe s true r g b).calls) ∧
    (update_leds_safe (update_leds_safe s true r g b).globals true r g b).calls =
      (update_leds_safe s true r g b).calls ∧
    (update_leds_safe (update_leds_safe s true r g b).globals true r g b).globals.current_rgb =
      (r, g, b) := by
  refine ⟨rfl, rfl, rfl, rfl, ?_, rfl, rfl⟩
  intro s2 h
  simp [update_leds_safe, set_rgb, h]

/-- C9: when the mutex is not obtained within the timeout, `update_leds_safe`
leaves the globals as they were and its only call is the one failed take: no
driver call, no give, no second take; the function has no return value. -/
theorem update_leds_safe_timeout (s : Globals) (r g b : uint8_t) :
    (update_leds_safe s false r g b).globals = s ∧
    (update_leds_safe s false r g b).calls = [Call.xSemaphoreTake 10] ∧
    (update_leds_safe s false r g b).calls.filter Call.isLedc = [] ∧
    (update_leds_safe s false r g b).value = () := by
  refine ⟨rfl, rfl, ?_, rfl⟩
  simp [update_leds_safe, Call.isLedc]

/-! ## Animation generator -/

/-- C3: from globals with `ws_connected` set, any number of consecutive
animation ticks (one per element of `es`, with arbitrary timer values and
mutex answers) leaves the globals, `current_rgb` included, as they were; the
ticks make no Output Sink call, their only calls being the delays. -/
theorem sine_animation_task_suppressed (sine : Nat → Rgb) (s : Globals) (es : List TickEnv)
    (h : s.ws_connected = true) :
    (sine_animation_task sine s es).globals = s ∧
    (sine_animation_task sine s es).globals.current_rgb = s.current_rgb ∧
    (sine_animation_task sine s es).calls.filter Call.isLedc = [] ∧
    (sine_animation_task sine s es).calls = List.replicate es.length (Call.vTaskDelay 20) := by
  induction es with
  | nil => simp [sine_animation_task]
  | cons e es ih =>
    obtain ⟨ih1, _, ih3, ih4⟩ := ih
    simp only [sine_animation_task, sine_animation_tick_connected sine s e h]
    refine ⟨ih1, by rw [ih1], ?_, ?_⟩
    · simp [List.filter_cons, Call.isLedc, ih3]
    · simp [ih4, List.replicate_succ]

/-- Witness of C3: three ticks on the live sample globals. -/
theorem sine_animation_task_suppressed_witness :
    sampleLive.ws_connected = true ∧
    ((sine_animation_task sampleSine sampleLive
        [⟨20000, true⟩, ⟨40000, false⟩, ⟨60000, true⟩]).globals = sampleLive ∧
     (sine_animation_task sampleSine sampleLive
        [⟨20000, true⟩, ⟨40000, false⟩, ⟨60000, true⟩]).globals.current_rgb
        = sampleLive.current_rgb ∧
     (sine_animation_task sampleSine sampleLive
        [⟨20000, true⟩, ⟨40000, false⟩, ⟨60000, true⟩]).calls.filter Call.isLedc = [] ∧
     (sine_animation_task sampleSine sampleLive
        [⟨20000, true⟩, ⟨40000, false⟩, ⟨60000, true⟩]).calls
        = List.replicate [(⟨20000, true⟩ : TickEnv), ⟨40000, false⟩, ⟨60000, true⟩].length
            (Call.vTaskDelay 20)) :=
  ⟨rfl, sine_animation_task_suppressed sampleSine sampleLive
    [⟨20000, true⟩, ⟨40000, false⟩, ⟨60000, true⟩] rfl⟩

/-! ## Remote control arbiter: `ws_handler` -/

/-- C5: on a frame event (request method other than GET) whose probing receive
succeeds with a type other than CLOSE and a length other than 3, `ws_handler`
leaves all globals (`current_rgb` and `ws_connected` included) as they were,
its only call is the probing receive (no Output Sink call, no frame sent), and
it returns `ESP_OK`. -/
theorem ws_handler_wrong_length (s : Globals) (req : httpd_req_t) (env : WsEnv)
    (hm : req.method ≠ HTTP_GET) (hp : env.probe.ret = ESP_OK)
    (ht : env.probe.type ≠ HTTPD_WS_TYPE_CLOSE) (hl : env.probe.len ≠ 3) :
    (ws_handler s req env).globals = s ∧
    (ws_handler s req env).globals.current_rgb = s.current_rgb ∧
    (ws_handler s req env).globals.ws_connected = s.ws_connected ∧
    (ws_handler s req env).calls = [Call.httpd_ws_recv_frame 0] ∧
    (ws_handler s req env).calls.filter Call.isLedc = [] ∧
    (ws_handler s req env).calls.filter Call.isSend = [] ∧
    (ws_handler s req env).value = ESP_OK := by
  simp [ws_handler, hm, hp, ht, hl, Call.isLedc, Call.isSend]

/-- Witness of C5: a 5-byte text frame arriving at the live sample globals. -/
theorem ws_handler_wrong_length_witness :
    (frameReq.method ≠ HTTP_GET ∧ (recvOk HTTPD_WS_TYPE_TEXT 5 (0, 0, 0)).ret = ESP_OK ∧
      (recvOk HTTPD_WS_TYPE_TEXT 5 (0, 0, 0)).type ≠ HTTPD_WS_TYPE_CLOSE ∧
      (recvOk HTTPD_WS_TYPE_TEXT 5 (0, 0, 0)).len ≠ 3) ∧
    ((ws_handler sampleLive frameReq
        ⟨recvOk HTTPD_WS_TYPE_TEXT 5 (0, 0, 0), recvFail, true⟩).globals = sampleLive ∧
     (ws_handler sampleLive frameReq
        ⟨recvOk HTTPD_WS_TYPE_TEXT 5 (0, 0, 0), recvFail, true⟩).globals.current_rgb
        = sampleLive.current_rgb ∧
     (ws_handler sampleLive frameReq
        ⟨recvOk HTTPD_WS_TYPE_TEXT 5 (0, 0, 0), recvFail, true⟩).globals.ws_connected
        = sampleLive.ws_connected ∧
     (ws_handler sampleLive frameReq
        ⟨recvOk HTTPD_WS_TYPE_TEXT 5 (0, 0, 0), recvFail, true⟩).calls
        = [Call.httpd_ws_recv_frame 0] ∧
     (ws_handler sampleLive frameReq
        ⟨recvOk HTTPD_WS_TYPE_TEXT 5 (0, 0, 0), recvFail, true⟩).calls.filter Call.isLedc = [] ∧
     (ws_handler sampleLive frameReq
        ⟨recvOk HTTPD_WS_TYPE_TEXT 5 (0, 0, 0), recvFail, true⟩).calls.filter Call.isSend = [] ∧
     (ws_handler sampleLive frameReq
        ⟨recvOk HTTPD_WS_TYPE_TEXT 5 (0, 0, 0), recvFail, true⟩).value = ESP_OK) :=
  ⟨⟨by decide, by decide, by decide, by decide⟩,
   ws_handler_wrong_length sampleLive frameReq
     ⟨recvOk HTTPD_WS_TYPE_TEXT 5 (0, 0, 0), recvFail, true⟩
     (by decide) (by decide) (by decide) (by decide)⟩

/-- C1 as stated fails in two ways.  A binary frame with payload (10,20,30),
both receives succeeding, leaves `current_rgb` at (128,128,128) when the mutex
take times out; and a CLOSE frame carrying the 3-byte payload (10,20,30)
leaves `ws_connected` false and `current_rgb` at (128,128,128) even with the
mutex free. -/
theorem ws_handler_colour_frame_counterexample :
    ((ws_handler sampleGlobals frameReq
        ⟨recvOk HTTPD_WS_TYPE_BINARY 3 (0, 0, 0), recvOk HTTPD_WS_TYPE_BINARY 3 (10, 20, 30),
          false⟩).globals.current_rgb = (128, 128, 128) ∧
     (ws_handler sampleGlobals frameReq
        ⟨recvOk HTTPD_WS_TYPE_BINARY 3 (0, 0, 0), recvOk HTTPD_WS_TYPE_BINARY 3 (10, 20, 30),
          false⟩).globals.current_rgb ≠ (10, 20, 30)) ∧
    ((ws_handler sampleGlobals frameReq
        ⟨recvOk HTTPD_WS_TYPE_CLOSE 3 (0, 0, 0), recvOk HTTPD_WS_TYPE_CLOSE 3 (10, 20, 30),
          true⟩).globals.ws_connected = false ∧
     (ws_handler sampleGlobals frameReq
        ⟨recvOk HTTPD_WS_TYPE_CLOSE 3 (0, 0, 0), recvOk HTTPD_WS_TYPE_CLOSE 3 (10, 20, 30),
          true⟩).globals.current_rgb ≠ (10, 20, 30)) := by
  decide

/-- C1, amended: on a frame event whose probing receive succeeds with a type
other than CLOSE and length 3, and whose payload receive succeeds with length 3
and bytes `(r,g,b) ≠ (255,255,255)`, `ws_handler` returns `ESP_OK` with
`ws_connected` true, for every prior state; `current_rgb` equals `(r,g,b)`
when the mutex take succeeds and is left as it was when the take times out. -/
theorem ws_handler_colour_frame (s : Globals) (req : httpd_req_t) (env : WsEnv) (r g b : uint8_t)
    (hm : req.method ≠ HTTP_GET) (hp : env.probe.ret = ESP_OK)
    (ht : env.probe.type ≠ HTTPD_WS_TYPE_CLOSE) (hl : env.probe.len = 3)
    (hr : env.read.ret = ESP_OK) (hrl : env.read.len = 3) (hb : env.read.buf = (r, g, b))
    (hne : (r, g, b) ≠ ((255, 255, 255) : Rgb)) :
    (ws_handler s req env).value = ESP_OK ∧
    (ws_handler s req env).globals.ws_connected = true ∧
    (env.take = true → (ws_handler s req env).globals.current_rgb = (r, g, b)) ∧
    (env.take = false → (ws_handler s req env).globals.current_rgb = s.current_rgb) := by
  have hne2 : ¬ (r = 255 ∧ g = 255 ∧ b = 255) := by
    rintro ⟨rfl, rfl, rfl⟩
    exact hne rfl
  cases htk : env.take <;>
    simp [ws_handler, hm, hp, ht, hl, hr, hrl, hb, hne2, htk, update_leds_safe]

/-- Witness of C1 amended: binary frame (10,20,30), mutex free. -/
theorem ws_handler_colour_frame_witness :
    (frameReq.method ≠ HTTP_GET ∧ ((10, 20, 30) : Rgb) ≠ (255, 255, 255)) ∧
    ((ws_handler sampleGlobals frameReq
        ⟨recvOk HTTPD_WS_TYPE_BINARY 3 (0, 0, 0), recvOk HTTPD_WS_TYPE_BINARY 3 (10, 20, 30),
          true⟩).value = ESP_OK ∧
     (ws_handler sampleGlobals frameReq
        ⟨recvOk HTTPD_WS_TYPE_BINARY 3 (0, 0, 0), recvOk HTTPD_WS_TYPE_BINARY 3 (10, 20, 30),
          true⟩).globals.ws_connected = true ∧
     (true = true → (ws_handler sampleGlobals frameReq
        ⟨recvOk HTTPD_WS_TYPE_BINARY 3 (0, 0, 0), recvOk HTTPD_WS_TYPE_BINARY 3 (10, 20, 30),
          true⟩).globals.current_rgb = (10, 20, 30)) ∧
     (true = false → (ws_handler sampleGlobals frameReq
        ⟨recvOk HTTPD_WS_TYPE_BINARY 3 (0, 0, 0), recvOk HTTPD_WS_TYPE_BINARY 3 (10, 20, 30),
          true⟩).globals.current_rgb = sampleGlobals.current_rgb)) :=
  ⟨⟨by decide, by decide⟩,
   ws_handler_colour_frame sampleGlobals frameReq
     ⟨recvOk HTTPD_WS_TYPE_BINARY 3 (0, 0, 0), recvOk HTTPD_WS_TYPE_BINARY 3 (10, 20, 30), true⟩
     10 20 30 (by decide) rfl (by decide) rfl rfl rfl rfl (by decide)⟩

/-- C2: when `ws_handler` receives a 3-byte frame with payload (255,255,255),
that is, on a frame event whose probing receive succeeds with length 3 on a
frame that passes the CLOSE test of line 188, so that its payload is read, and
whose payload receive succeeds with length 3 and bytes (255,255,255), then for
every prior state and mutex answer `current_rgb` (and the table) is left as it
was, no Output Sink call is made, and exactly one frame is sent: the packet as
the payload receive left it, with that receive's type, length 3 and payload
(255,255,255).  The handler's calls are the two receives followed by that
send. -/
theorem ws_handler_echo (s : Globals) (req : httpd_req_t) (env : WsEnv)
    (hm : req.method ≠ HTTP_GET) (hp : env.probe.ret = ESP_OK)
    (ht : env.probe.type ≠ HTTPD_WS_TYPE_CLOSE) (hl : env.probe.len = 3)
    (hr : env.read.ret = ESP_OK) (hrl : env.read.len = 3)
    (hb : env.read.buf = ((255, 255, 255) : Rgb)) :
    (ws_handler s req env).globals.current_rgb = s.current_rgb ∧
    (ws_handler s req env).globals.gamma_table = s.gamma_table ∧
    (ws_handler s req env).calls.filter Call.isLedc = [] ∧
    (ws_handler s req env).calls.filter Call.isSend =
      [Call.httpd_ws_send_frame
        { final := env.read.final, fragmented := env.read.fragmented, type := env.read.type,
          payload := [255, 255, 255], len := 3 }] ∧
    (ws_handler s req env).calls =
      [Call.httpd_ws_recv_frame 0, Call.httpd_ws_recv_frame 3,
       Call.httpd_ws_send_frame
        { final := env.read.final, fragmented := env.read.fragmented, type := env.read.type,
          payload := [255, 255, 255], len := 3 }] := by
  simp [ws_handler, hm, hp, ht, hl, hr, hrl, hb, Call.isLedc, Call.isSend]

/-- Witness of C2: a binary frame (255,255,255) at the live sample
globals, whose colour (10,20,30) stays. -/
theorem ws_handler_echo_witness :
    (frameReq.method ≠ HTTP_GET ∧
      (recvOk HTTPD_WS_TYPE_BINARY 3 (0, 0, 0)).type ≠ HTTPD_WS_TYPE_CLOSE) ∧
    ((ws_handler sampleLive frameReq
        ⟨recvOk HTTPD_WS_TYPE_BINARY 3 (0, 0, 0), recvOk HTTPD_WS_TYPE_BINARY 3 (255, 255, 255),
          true⟩).globals.current_rgb = sampleLive.current_rgb ∧
     (ws_handler sampleLive frameReq
        ⟨recvOk HTTPD_WS_TYPE_BINARY 3 (0, 0, 0), recvOk HTTPD_WS_TYPE_BINARY 3 (255, 255, 255),
          true⟩).globals.gamma_table = sampleLive.gamma_table ∧
     (ws_handler sampleLive frameReq
        ⟨recvOk HTTPD_WS_TYPE_BINARY 3 (0, 0, 0), recvOk HTTPD_WS_TYPE_BINARY 3 (255, 255, 255),
          true⟩).calls.filter Call.isLedc = [] ∧
     (ws_handler sampleLive frameReq
        ⟨recvOk HTTPD_WS_TYPE_BINARY 3 (0, 0, 0), recvOk HTTPD_WS_TYPE_BINARY 3 (255, 255, 255),
          true⟩).calls.filter Call.isSend =
        [Call.httpd_ws_send_frame
          { final := true, fragmented := false, type := HTTPD_WS_TYPE_BINARY,
            payload := [255, 255, 255], len := 3 }] ∧
     (ws_handler sampleLive frameReq
        ⟨recvOk HTTPD_WS_TYPE_BINARY 3 (0, 0, 0), recvOk HTTPD_WS_TYPE_BINARY 3 (255, 255, 255),
          true⟩).calls =
        [Call.httpd_ws_recv_frame 0, Call.httpd_ws_recv_frame 3,
         Call.httpd_ws_send_frame
          { final := true, fragmented := false, type := HTTPD_WS_TYPE_BINARY,
            payload := [255, 255, 255], len := 3 }]) :=
  ⟨⟨by decide, by decide⟩,
   ws_handler_echo sampleLive frameReq
     ⟨recvOk HTTPD_WS_TYPE_BINARY 3 (0, 0, 0), recvOk HTTPD_WS_TYPE_BINARY 3 (255, 255, 255), true⟩
     (by decide) rfl (by decide) rfl rfl rfl rfl⟩

/-- C4 as stated fails when the tick after a close cannot take the mutex: the
handler clears `ws_connected` on a CLOSE frame, the next tick at 20000 us does
attempt the write of the sine triple, but the take times out and `current_rgb`
stays (10,20,30) instead of becoming that triple. -/
theorem close_then_tick_counterexample :
    (ws_handler sampleLive frameReq
        ⟨recvOk HTTPD_WS_TYPE_CLOSE 0 (0, 0, 0), recvFail, true⟩).globals.ws_connected = false ∧
    (sine_animation_tick sampleSine
        (ws_handler sampleLive frameReq
          ⟨recvOk HTTPD_WS_TYPE_CLOSE 0 (0, 0, 0), recvFail, true⟩).globals
        ⟨20000, false⟩).globals.current_rgb = (10, 20, 30) ∧
    (sine_animation_tick sampleSine
        (ws_handler sampleLive frameReq
          ⟨recvOk HTTPD_WS_TYPE_CLOSE 0 (0, 0, 0), recvFail, true⟩).globals
        ⟨20000, false⟩).globals.current_rgb ≠ sampleSine 20000 ∧
    (sine_animation_tick sampleSine
        (ws_handler sampleLive frameReq
          ⟨recvOk HTTPD_WS_TYPE_CLOSE 0 (0, 0, 0), recvFail, true⟩).globals
        ⟨20000, false⟩).calls
      = [Call.esp_timer_get_time, Call.xSemaphoreTake 10, Call.vTaskDelay 20] := by
  decide

/-- C4, amended: on a frame event whose probing receive fails, or whose frame
type is CLOSE, or whose payload receive (made for a probed length of 3) fails,
`ws_handler` leaves `ws_connected` false and returns `ESP_OK`, for every prior
state.  The next animation tick then reads the timer and calls
`update_leds_safe` with the sine triple of that time: its globals and calls are
those of that write, so `current_rgb` becomes the sine triple when the mutex
take succeeds and stays as it was when the take times out. -/
theorem ws_handler_close_then_tick (sine : Nat → Rgb) (s : Globals) (req : httpd_req_t)
    (env : WsEnv) (e : TickEnv)
    (hm : req.method ≠ HTTP_GET)
    (hf : env.probe.ret ≠ ESP_OK ∨ env.probe.type = HTTPD_WS_TYPE_CLOSE ∨
          (env.probe.len = 3 ∧ env.read.ret ≠ ESP_OK)) :
    (ws_handler s req env).globals.ws_connected = false ∧
    (ws_handler s req env).value = ESP_OK ∧
    (ws_handler s req env).globals.current_rgb = s.current_rgb ∧
    (sine_animation_tick sine (ws_handler s req env).globals e).calls =
      [Call.esp_timer_get_time] ++
      (update_leds_safe (ws_handler s req env).globals e.take
        (sine e.time_us).1 (sine e.time_us).2.1 (sine e.time_us).2.2).calls ++
      [Call.vTaskDelay 20] ∧
    (sine_animation_tick sine (ws_handler s req env).globals e).globals =
      (update_leds_safe (ws_handler s req env).globals e.take
        (sine e.time_us).1 (sine e.time_us).2.1 (sine e.time_us).2.2).globals ∧
    (e.take = true →
      (sine_animation_tick sine (ws_handler s req env).globals e).globals.current_rgb
        = sine e.time_us) ∧
    (e.take = false →
      (sine_animation_tick sine (ws_handler s req env).globals e).globals.current_rgb
        = s.current_rgb) := by
  have hc : (ws_handler s req env).globals.ws_connected = false ∧
      (ws_handler s req env).value = ESP_OK ∧
      (ws_handler s req env).globals.current_rgb = s.current_rgb := by
    by_cases h1 : env.probe.ret = ESP_OK
    · by_cases h2 : env.probe.type = HTTPD_WS_TYPE_CLOSE
      · simp [ws_handler, hm, h1, h2]
      · rcases hf with h | h | ⟨h3, h4⟩
        · exact absurd h1 h
        · exact absurd h h2
        · simp [ws_handler, hm, h1, h2, h3, h4]
    · simp [ws_handler, hm, h1]
  obtain ⟨hc1, hc2, hc3⟩ := hc
  refine ⟨hc1, hc2, hc3, ?_, ?_, ?_, ?_⟩
  · rw [sine_animation_tick_idle sine _ e hc1]
  · rw [sine_animation_tick_idle sine _ e hc1]
  · intro ht
    rw [sine_animation_tick_idle sine _ e hc1]
    simp [update_leds_safe, ht]
  · intro ht
    rw [sine_animation_tick_idle sine _ e hc1]
    simp [update_leds_safe, ht, hc3]

/-- Witness of C4 amended: the payload receive of a 3-byte text frame fails at
the live sample globals; the tick at 20000 us takes the mutex. -/
theorem ws_handler_close_then_tick_witness :
    (frameReq.method ≠ HTTP_GET ∧
      ((recvOk HTTPD_WS_TYPE_TEXT 3 (0, 0, 0)).len = 3 ∧ recvFail.ret ≠ ESP_OK)) ∧
    ((ws_handler sampleLive frameReq
        ⟨recvOk HTTPD_WS_TYPE_TEXT 3 (0, 0, 0), recvFail, true⟩).globals.ws_connected = false ∧
     (ws_handler sampleLive frameReq
        ⟨recvOk HTTPD_WS_TYPE_TEXT 3 (0, 0, 0), recvFail, true⟩).value = ESP_OK ∧
     (sine_animation_tick sampleSine
        (ws_handler sampleLive frameReq
          ⟨recvOk HTTPD_WS_TYPE_TEXT 3 (0, 0, 0), recvFail, true⟩).globals
        ⟨20000, true⟩).globals.current_rgb = sampleSine 20000) :=
  ⟨⟨by decide, by decide, by decide⟩,
   (ws_handler_close_then_tick sampleSine sampleLive frameReq
      ⟨recvOk HTTPD_WS_TYPE_TEXT 3 (0, 0, 0), recvFail, true⟩ ⟨20000, true⟩
      (by decide) (Or.inr (Or.inr ⟨rfl, by decide⟩))).1,
   (ws_handler_close_then_tick sampleSine sampleLive frameReq
      ⟨recvOk HTTPD_WS_TYPE_TEXT 3 (0, 0, 0), recvFail, true⟩ ⟨20000, true⟩
      (by decide) (Or.inr (Or.inr ⟨rfl, by decide⟩))).2.1,
   (ws_handler_close_then_tick sampleSine sampleLive frameReq
      ⟨recvOk HTTPD_WS_TYPE_TEXT 3 (0, 0, 0), recvFail, true⟩ ⟨20000, true⟩
      (by decide) (Or.inr (Or.inr ⟨rfl, by decide⟩))).2.2.2.2.2.1 rfl⟩

/-! ## Output/state consistency -/

/-- The handler's own stores leave the table and the stored colour alone. -/
theorem ws_handler_request_keeps (s : Globals) (req : httpd_req_t) (probe read : RecvOutcome) :
    (ws_handler_request s req probe read).1.gamma_table = s.gamma_table ∧
    (ws_handler_request s req probe read).1.current_rgb = s.current_rgb := by
  unfold ws_handler_request
  split_ifs <;> exact ⟨rfl, rfl⟩

/-- The handler is its own stores followed by the colour write it asks for. -/
theorem ws_handler_request_globals (s : Globals) (req : httpd_req_t) (env : WsEnv) :
    (ws_handler s req env).globals =
      match (ws_handler_request s req env.probe env.read).2 with
      | some rgb => (update_leds_safe (ws_handler_request s req env.probe env.read).1 env.take
          rgb.1 rgb.2.1 rgb.2.2).globals
      | none => (ws_handler_request s req env.probe env.read).1 := by
  by_cases hm : req.method = HTTP_GET
  · simp [ws_handler, ws_handler_request, hm]
  by_cases hp : env.probe.ret = ESP_OK
  swap
  · simp [ws_handler, ws_handler_request, hm, hp]
  by_cases ht : env.probe.type = HTTPD_WS_TYPE_CLOSE
  · simp [ws_handler, ws_handler_request, hm, hp, ht]
  by_cases hl : env.probe.len = 3
  swap
  · simp [ws_handler, ws_handler_request, hm, hp, ht, hl]
  by_cases hr1 : env.read.ret = ESP_OK
  swap
  · simp [ws_handler, ws_handler_request, hm, hp, ht, hl, hr1]
  by_cases hr2 : env.read.len = 3
  swap
  · simp [ws_handler, ws_handler_request, hm, hp, ht, hl, hr1, hr2]
  by_cases hw1 : env.read.buf.1 = 255
  swap
  · simp [ws_handler, ws_handler_request, hm, hp, ht, hl, hr1, hr2, hw1]
  by_cases hw2 : env.read.buf.2.1 = 255
  swap
  · simp [ws_handler, ws_handler_request, hm, hp, ht, hl, hr1, hr2, hw1, hw2]
  by_cases hw3 : env.read.buf.2.2 = 255
  swap
  · simp [ws_handler, ws_handler_request, hm, hp, ht, hl, hr1, hr2, hw1, hw2, hw3]
  simp [ws_handler, ws_handler_request, hm, hp, ht, hl, hr1, hr2, hw1, hw2, hw3]

/-- The driver sees of a handler invocation exactly the calls of the colour
write it asks for. -/
theorem ws_handler_request_ledc (s : Globals) (h : Ledc) (req : httpd_req_t) (env : WsEnv) :
    h.run (ws_handler s req env).calls =
      match (ws_handler_request s req env.probe env.read).2 with
      | some rgb => h.run (update_leds_safe (ws_handler_request s req env.probe env.read).1
          env.take rgb.1 rgb.2.1 rgb.2.2).calls
      | none => h := by
  by_cases hm : req.method = HTTP_GET
  · simp [ws_handler, ws_handler_request, hm, Ledc.run]
  by_cases hp : env.probe.ret = ESP_OK
  swap
  · simp [ws_handler, ws_handler_request, hm, hp, Ledc.run, Ledc.call]
  by_cases ht : env.probe.type = HTTPD_WS_TYPE_CLOSE
  · simp [ws_handler, ws_handler_request, hm, hp, ht, Ledc.run, Ledc.call]
  by_cases hl : env.probe.len = 3
  swap
  · simp [ws_handler, ws_handler_request, hm, hp, ht, hl, Ledc.run, Ledc.call]
  by_cases hr1 : env.read.ret = ESP_OK
  swap
  · simp [ws_handler, ws_handler_request, hm, hp, ht, hl, hr1, Ledc.run, Ledc.call]
  by_cases hr2 : env.read.len = 3
  swap
  · simp [ws_handler, ws_handler_request, hm, hp, ht, hl, hr1, hr2, Ledc.run, Ledc.call]
  by_cases hw1 : env.read.buf.1 = 255
  swap
  · simp [ws_handler, ws_handler_request, hm, hp, ht, hl, hr1, hr2, hw1, Ledc.run, Ledc.call]
  by_cases hw2 : env.read.buf.2.1 = 255
  swap
  · simp [ws_handler, ws_handler_request, hm, hp, ht, hl, hr1, hr2, hw1, hw2, Ledc.run, Ledc.call]
  by_cases hw3 : env.read.buf.2.2 = 255
  swap
  · simp [ws_handler, ws_handler_request, hm, hp, ht, hl, hr1, hr2, hw1, hw2, hw3, Ledc.run,
      Ledc.call]
  simp [ws_handler, ws_handler_request, hm, hp, ht, hl, hr1, hr2, hw1, hw2, hw3, Ledc.run,
    Ledc.call]

/-- A loop iteration is the colour write it asks for, if any. -/
theorem sine_animation_request_globals (sine : Nat → Rgb) (s : Globals) (e : TickEnv) :
    (sine_animation_tick sine s e).globals =
      match sine_animation_request sine s e.time_us with
      | some rgb => (update_leds_safe s e.take rgb.1 rgb.2.1 rgb.2.2).globals
      | none => s := by
  unfold sine_animation_tick sine_animation_request
  split_ifs <;> rfl

/-- Executed without interruption, lines 62-66 have the effect of
`update_leds_safe` with the mutex taken: same globals, same driver calls. -/
theorem crit_step_all (rgb : Rgb) (s : Globals) (h : Ledc) :
    ∃ s1 h1 s2 h2 s3 h3 s4 h4 s5 h5 s6 h6 s7 h7 s8 h8 s9 h9,
      crit_step rgb .L62 s h = (s1, h1, .inside rgb .L63) ∧
      crit_step rgb .L63 s1 h1 = (s2, h2, .inside rgb .L64) ∧
      crit_step rgb .L64 s2 h2 = (s3, h3, .inside rgb .L51) ∧
      crit_step rgb .L51 s3 h3 = (s4, h4, .inside rgb .L52) ∧
      crit_step rgb .L52 s4 h4 = (s5, h5, .inside rgb .L53) ∧
      crit_step rgb .L53 s5 h5 = (s6, h6, .inside rgb .L54) ∧
      crit_step rgb .L54 s6 h6 = (s7, h7, .inside rgb .L55) ∧
      crit_step rgb .L55 s7 h7 = (s8, h8, .inside rgb .L56) ∧
      crit_step rgb .L56 s8 h8 = (s9, h9, .inside rgb .L66) ∧
      crit_step rgb .L66 s9 h9 =
        ((update_leds_safe s true rgb.1 rgb.2.1 rgb.2.2).globals,
         h.run (update_leds_safe s true rgb.1 rgb.2.1 rgb.2.2).calls, .idle) :=
  ⟨_, _, _, _, _, _, _, _, _, _, _, _, _, _, _, _, _, _,
    rfl, rfl, rfl, rfl, rfl, rfl, rfl, rfl, rfl, rfl⟩

/-- The invariant holds when the tasks start. -/
theorem conc_init_inv (table : uint8_t → Nat) : (conc_init table).Inv := by
  simp [Conc.Inv, conc_init, Conc.system, app_main_init, pwm_init, set_rgb, Ledc.run, Ledc.call,
    Consistent, Function.update, LEDC_CHANNEL_0, LEDC_CHANNEL_1, LEDC_CHANNEL_2]

/-- What the holder has established does not depend on the liveness flag. -/
theorem critInv_congr (rgb : Rgb) (next : Line) (s s2 : Globals) (h : Ledc)
    (ht : s2.gamma_table = s.gamma_table) (hc : s2.current_rgb = s.current_rgb)
    (hi : CritInv rgb next s h) : CritInv rgb next s2 h := by
  cases next <;> simp_all [CritInv]

/-- Consistency does not depend on the liveness flag. -/
theorem consistent_congr (s s2 : Globals) (h : Ledc)
    (ht : s2.gamma_table = s.gamma_table) (hc : s2.current_rgb = s.current_rgb)
    (hi : Consistent ⟨s, h⟩) : Consistent ⟨s2, h⟩ := by
  simpa [Consistent, ht, hc] using hi

/-- One statement of the holder carries `CritInv` to the next program point,
and the give of line 66 leaves output and state consistent. -/
theorem crit_step_inv (rgb : Rgb) (next : Line) (s : Globals) (h : Ledc)
    (hi : CritInv rgb next s h) :
    match (crit_step rgb next s h).2.2 with
    | .inside rgb2 next2 =>
        rgb2 = rgb ∧ CritInv rgb next2 (crit_step rgb next s h).1 (crit_step rgb next s h).2.1
    | _ => Consistent ⟨(crit_step rgb next s h).1, (crit_step rgb next s h).2.1⟩ := by
  obtain ⟨r, g, b⟩ := rgb
  obtain ⟨tbl, flag, ⟨cr, cg, cb⟩⟩ := s
  cases next <;>
    simp_all [crit_step, CritInv, Consistent, Ledc.call, Function.update, LEDC_CHANNEL_0,
      LEDC_CHANNEL_1, LEDC_CHANNEL_2]

/-- The invariant read off for an idle or blocked animation task. -/
theorem inv_of_not_holds (gl : Globals) (hw : Ledc) (a t : Status) (ha : a.holds = false) :
    Conc.Inv ⟨gl, hw, a, t⟩ ↔
      (match t with
       | .inside rgb next => CritInv rgb next gl hw
       | _ => Consistent ⟨gl, hw⟩) := by
  cases a <;> cases t <;> simp_all [Conc.Inv, Conc.system, Status.holds]

/-- The invariant read off for an idle or blocked server task. -/
theorem inv_of_not_holds_httpd (gl : Globals) (hw : Ledc) (a t : Status)
    (ht : t.holds = false) :
    Conc.Inv ⟨gl, hw, a, t⟩ ↔
      (match a with
       | .inside rgb next => CritInv rgb next gl hw
       | _ => Consistent ⟨gl, hw⟩) := by
  cases a <;> cases t <;> simp_all [Conc.Inv, Conc.system, Status.holds]

/-- Every move preserves the invariant. -/
theorem conc_step_inv (sine : Nat → Rgb) (c : Conc) (e : Event) (hi : c.Inv) :
    (c.step sine e).Inv := by
  obtain ⟨gl, hw, a, t⟩ := c
  cases e with
  | tick time_us =>
    cases a with
    | idle =>
      cases hr : sine_animation_request sine gl time_us with
      | none => simpa [Conc.step, hr] using hi
      | some rgb =>
        simp only [Conc.step, hr]
        rw [inv_of_not_holds gl hw Status.idle t rfl] at hi
        rw [inv_of_not_holds gl hw (Status.waiting rgb) t rfl]
        exact hi
    | waiting rgb => simpa [Conc.step] using hi
    | inside rgb next => simpa [Conc.step] using hi
  | request req probe read =>
    cases t with
    | idle =>
      obtain ⟨k1, k2⟩ := ws_handler_request_keeps gl req probe read
      rw [inv_of_not_holds_httpd gl hw a Status.idle rfl] at hi
      cases hr : ws_handler_request gl req probe read with
      | mk s o =>
        rw [hr] at k1 k2
        cases o with
        | none =>
          simp only [Conc.step, hr]
          rw [inv_of_not_holds_httpd s hw a Status.idle rfl]
          cases a with
          | idle => exact consistent_congr gl s hw k1 k2 hi
          | waiting rgb => exact consistent_congr gl s hw k1 k2 hi
          | inside rgb next => exact critInv_congr rgb next gl s hw k1 k2 hi
        | some rgb2 =>
          simp only [Conc.step, hr]
          rw [inv_of_not_holds_httpd s hw a (Status.waiting rgb2) rfl]
          cases a with
          | idle => exact consistent_congr gl s hw k1 k2 hi
          | waiting rgb => exact consistent_congr gl s hw k1 k2 hi
          | inside rgb next => exact critInv_congr rgb next gl s hw k1 k2 hi
    | waiting rgb => simpa [Conc.step] using hi
    | inside rgb next => simpa [Conc.step] using hi
  | take tk =>
    cases tk with
    | anim =>
      cases a with
      | idle => simpa [Conc.step] using hi
      | inside rgb next => simpa [Conc.step] using hi
      | waiting rgb =>
        cases t with
        | idle => simp [Conc.step, Status.holds, Conc.Inv, CritInv]
        | waiting rgb2 => simp [Conc.step, Status.holds, Conc.Inv, CritInv]
        | inside rgb2 next2 => simpa [Conc.step, Status.holds] using hi
    | httpd =>
      cases t with
      | idle => simpa [Conc.step] using hi
      | inside rgb next => simpa [Conc.step] using hi
      | waiting rgb =>
        cases a with
        | idle => simp [Conc.step, Status.holds, Conc.Inv, CritInv]
        | waiting rgb2 => simp [Conc.step, Status.holds, Conc.Inv, CritInv]
        | inside rgb2 next2 => simpa [Conc.step, Status.holds] using hi
  | timeout tk =>
    cases tk with
    | anim =>
      cases a with
      | idle => simpa [Conc.step] using hi
      | inside rgb next => simpa [Conc.step] using hi
      | waiting rgb =>
        cases t with
        | idle => simpa [Conc.step, Status.holds] using hi
        | waiting rgb2 => simpa [Conc.step, Status.holds] using hi
        | inside rgb2 next2 => simpa [Conc.step, Status.holds, Conc.Inv] using hi
    | httpd =>
      cases t with
      | idle => simpa [Conc.step] using hi
      | inside rgb next => simpa [Conc.step] using hi
      | waiting rgb =>
        cases a with
        | idle => simpa [Conc.step, Status.holds] using hi
        | waiting rgb2 => simpa [Conc.step, Status.holds] using hi
        | inside rgb2 next2 => simpa [Conc.step, Status.holds, Conc.Inv] using hi
  | advance tk =>
    cases tk with
    | anim =>
      cases a with
      | idle => simpa [Conc.step] using hi
      | waiting rgb => simpa [Conc.step] using hi
      | inside rgb next =>
        have ht : t.holds = false := by
          cases t <;> simp_all [Conc.Inv, Status.holds]
        rw [inv_of_not_holds_httpd _ _ _ _ ht] at hi
        have hk := crit_step_inv rgb next gl hw hi
        simp only [Conc.step]
        rw [inv_of_not_holds_httpd _ _ _ _ ht]
        cases hs : (crit_step rgb next gl hw).2.2 with
        | idle => simpa [hs] using hk
        | waiting rgb2 => simpa [hs] using hk
        | inside rgb2 next2 =>
          rw [hs] at hk
          obtain ⟨h1, h2⟩ := hk
          subst h1
          exact h2
    | httpd =>
      cases t with
      | idle => simpa [Conc.step] using hi
      | waiting rgb => simpa [Conc.step] using hi
      | inside rgb next =>
        have ha : a.holds = false := by
          cases a <;> simp_all [Conc.Inv, Status.holds]
        rw [inv_of_not_holds _ _ _ _ ha] at hi
        have hk := crit_step_inv rgb next gl hw hi
        simp only [Conc.step]
        rw [inv_of_not_holds _ _ _ _ ha]
        cases hs : (crit_step rgb next gl hw).2.2 with
        | idle => simpa [hs] using hk
        | waiting rgb2 => simpa [hs] using hk
        | inside rgb2 next2 =>
          rw [hs] at hk
          obtain ⟨h1, h2⟩ := hk
          subst h1
          exact h2

/-- The invariant holds after every sequence of moves from the start. -/
theorem conc_run_inv (sine : Nat → Rgb) (c : Conc) (l : List Event) (hi : c.Inv) :
    (c.run sine l).Inv := by
  induction l generalizing c with
  | nil => simpa [Conc.run] using hi
  | cons e l ih => simpa [Conc.run] using ih (c.step sine e) (conc_step_inv sine c e hi)

/-- C10 as stated fails once the two tasks interleave.  The animation task
takes the mutex and stores the sine triple of 20000 us in `current_rgb` (lines
62-64) without yet having reached `set_rgb`.  A handshake invocation of
`ws_handler` that runs to its return at that point, and likewise a colour
frame (10,20,30) whose write times out on the held mutex, ends in a state
where channel 0 still carries the duty of the old byte 128, not
`gamma_table[current_rgb[0]]`. -/
theorem consistent_counterexample :
    (((conc_init sampleTable).run sampleSine
        (midWrite ++ [Event.request ⟨HTTP_GET⟩ recvFail recvFail])).httpd = Status.idle ∧
     ((conc_init sampleTable).run sampleSine
        (midWrite ++ [Event.request ⟨HTTP_GET⟩ recvFail recvFail])).ledc.out LEDC_CHANNEL_0
        = sampleTable 128 ∧
     ((conc_init sampleTable).run sampleSine
        (midWrite ++ [Event.request ⟨HTTP_GET⟩ recvFail recvFail])).globals.current_rgb.1 = 32 ∧
     ¬ Consistent ((conc_init sampleTable).run sampleSine
        (midWrite ++ [Event.request ⟨HTTP_GET⟩ recvFail recvFail])).system) ∧
    (((conc_init sampleTable).run sampleSine
        (midWrite ++ [Event.request frameReq (recvOk HTTPD_WS_TYPE_BINARY 3 (0, 0, 0))
            (recvOk HTTPD_WS_TYPE_BINARY 3 (10, 20, 30)),
          Event.timeout TaskId.httpd])).httpd = Status.idle ∧
     ¬ Consistent ((conc_init sampleTable).run sampleSine
        (midWrite ++ [Event.request frameReq (recvOk HTTPD_WS_TYPE_BINARY 3 (0, 0, 0))
            (recvOk HTTPD_WS_TYPE_BINARY 3 (10, 20, 30)),
          Event.timeout TaskId.httpd])).system) := by
  decide

/-- C10, amended: output/state consistency holds whenever `rgb_mutex` is free.
In the state reached when `app_main` has built the table, run `pwm_init` and
issued `set_rgb(128,128,128)` with `current_rgb = {128,128,128}`, and in every
state reached from there by any interleaving of the two tasks (loop iterations
at any time, handler invocations on any request and frame, takes, timeouts and
single statements of lines 62-66, for any table contents and any sine
computation) in which no task is inside lines 62-66, the duty last committed
to channels 0, 1, 2 equals `gamma_table[current_rgb[0]]`,
`gamma_table[current_rgb[1]]`, `gamma_table[current_rgb[2]]`. -/
theorem consistent_when_mutex_free (sine : Nat → Rgb) (table : uint8_t → Nat) (l : List Event)
    (hfree : ((conc_init table).run sine l).mutexFree = true) :
    Consistent (app_main_init table) ∧
    Consistent ((conc_init table).run sine l).system := by
  have h0 : (conc_init table).Inv := conc_init_inv table
  refine ⟨by simpa [Conc.Inv, conc_init, Conc.system] using h0, ?_⟩
  have hi := conc_run_inv sine (conc_init table) l h0
  generalize (conc_init table).run sine l = c at hi hfree
  obtain ⟨gl, hw, a, t⟩ := c
  cases a <;> cases t <;>
    simp_all [Conc.Inv, Conc.system, Conc.mutexFree, Status.holds]

/-- Witness of C10 amended: two complete writes and a handshake on the sample
table leave the mutex free and output and state consistent. -/
theorem consistent_when_mutex_free_witness :
    ((conc_init sampleTable).run sampleSine fullWrites).mutexFree = true ∧
    (Consistent (app_main_init sampleTable) ∧
     Consistent ((conc_init sampleTable).run sampleSine fullWrites).system) :=
  ⟨by decide, consistent_when_mutex_free sampleSine sampleTable fullWrites (by decide)⟩

/-! ## Gamma table -/

/-- The shift of line 34 is 8192. -/
theorem shift_duty_res : (((1 <<< LEDC_DUTY_RES : Nat) : ℚ)) = 8192 := by
  have h : (1 <<< LEDC_DUTY_RES : Nat) = 8192 := by decide
  rw [h]
  norm_num

/-- Entry 0 of the table: with `powf(0, 2.2f) = 0` the converted value is
`0 * 8192 - 1 = -1`, outside `uint32_t`. -/
theorem gamma_entry_zero (fl pow22 : ℚ → ℚ) (hfl : FixesSmallIntegers fl) (h0 : pow22 0 = 0) :
    gamma_entry fl pow22 0 = none := by
  have f0 : fl 0 = 0 := by simpa using hfl 0 (by norm_num)
  have fm : fl (-1) = -1 := by simpa using hfl (-1) (by norm_num)
  have hx : fl (fl (pow22 (fl (((0 : Nat) : ℚ) / 255)) * (((1 <<< LEDC_DUTY_RES : Nat) : ℚ))) - 1)
      = -1 := by
    rw [shift_duty_res]
    norm_num [h0, f0, fm]
  unfold gamma_entry
  simp only [hx]
  decide

/-- C6, evaluated on the code: for single-precision rounding that keeps small
integers and any `powf` with `powf(0, 2.2f) = 0` and `powf(1, 2.2f) = 1`,
entry 255 of the table written by `init_gamma_table` is `8191 = 2 ^ 13 - 1`,
but entry 0 is the conversion of `0 * 8192 - 1 = -1` to `uint32_t`, which is
undefined, not 0: the unparenthesised `MAX_DUTY` turns `x * MAX_DUTY` into
`x * (1 << 13) - 1`. -/
theorem init_gamma_table_endpoints (fl pow22 : ℚ → ℚ) (hfl : FixesSmallIntegers fl)
    (h0 : pow22 0 = 0) (h1 : pow22 1 = 1) :
    init_gamma_table fl pow22 0 = none ∧
    init_gamma_table fl pow22 0 ≠ some 0 ∧
    init_gamma_table fl pow22 255 = some 8191 ∧
    (2 : Nat) ^ LEDC_DUTY_RES - 1 = 8191 := by
  have e0 : init_gamma_table fl pow22 0 = none := gamma_entry_zero fl pow22 hfl h0
  have f1 : fl 1 = 1 := by simpa using hfl 1 (by norm_num)
  have f8192 : fl 8192 = 8192 := by simpa using hfl 8192 (by norm_num)
  have f8191 : fl 8191 = 8191 := by simpa using hfl 8191 (by norm_num)
  have hx : fl (fl (pow22 (fl (((255 : Nat) : ℚ) / 255)) *
      (((1 <<< LEDC_DUTY_RES : Nat) : ℚ))) - 1) = 8191 := by
    rw [shift_duty_res]
    norm_num [h1, f1, f8192, f8191]
  have e255 : init_gamma_table fl pow22 255 = some 8191 := by
    show gamma_entry fl pow22 255 = some 8191
    unfold gamma_entry
    simp only [hx]
    decide
  refine ⟨e0, ?_, e255, by decide⟩
  rw [e0]
  exact fun h => Option.noConfusion h

/-- Witness of the C6 evaluation, with exact arithmetic for the rounding and
the square standing in for `powf`. -/
theorem init_gamma_table_endpoints_witness :
    (FixesSmallIntegers id ∧ sampleSquare 0 = 0 ∧ sampleSquare 1 = 1) ∧
    (init_gamma_table id sampleSquare 0 = none ∧
     init_gamma_table id sampleSquare 0 ≠ some 0 ∧
     init_gamma_table id sampleSquare 255 = some 8191 ∧
     (2 : Nat) ^ LEDC_DUTY_RES - 1 = 8191) :=
  ⟨⟨fun _ _ => rfl, by norm_num [sampleSquare], by norm_num [sampleSquare]⟩,
   init_gamma_table_endpoints id sampleSquare (fun _ _ => rfl) (by norm_num [sampleSquare])
     (by norm_num [sampleSquare])⟩

/-- C7, evaluated on the code: for single-precision rounding that keeps small
integers and any `powf` with `powf(0, 2.2f) = 0`, the table has no defined
entry 0 that could be compared with entry 1, so
`gamma_table[0] <= gamma_table[1]` is not established by the code. -/
theorem init_gamma_table_zero_one (fl pow22 : ℚ → ℚ) (hfl : FixesSmallIntegers fl)
    (h0 : pow22 0 = 0) :
    ¬ ∃ a b : Nat, init_gamma_table fl pow22 0 = some a ∧ init_gamma_table fl pow22 1 = some b ∧
      a ≤ b := by
  rintro ⟨a, b, ha, -, -⟩
  have e0 : init_gamma_table fl pow22 0 = none := gamma_entry_zero fl pow22 hfl h0
  rw [e0] at ha
  exact Option.noConfusion ha

/-- Witness of the C7 evaluation, with exact arithmetic for the rounding and
the square standing in for `powf`. -/
theorem init_gamma_table_zero_one_witness :
    (FixesSmallIntegers id ∧ sampleSquare 0 = 0) ∧
    ¬ ∃ a b : Nat, init_gamma_table id sampleSquare 0 = some a ∧
      init_gamma_table id sampleSquare 1 = some b ∧ a ≤ b :=
  ⟨⟨fun _ _ => rfl, by norm_num [sampleSquare]⟩,
   init_gamma_table_zero_one id sampleSquare (fun _ _ => rfl) (by norm_num [sampleSquare])⟩

end ColorOrgan
